import Mathlib

/-!
Shallow embedding of the health-probe and VMWatch-supervisor core of
`applicationhealth-extension-linux` (file `main/vmWatch.go`), together with
theorems checking the natural-language specification against it.

Go strings are Lean `String`, Go `int` is Lean `Int`, Go `error` values are
`Option GoErr` (`none` = nil error).  Network and OS effects (dialing,
HTTP transport, process start/wait/kill) are modelled as oracle inputs
describing the environment's behaviour at each interaction point; the Lean
functions reproduce the Go control flow over those inputs.
-/

namespace AppHealth

/-- Go errors are modelled by their message; a Go `error` variable that may be
nil is `Option GoErr`. -/
abbrev GoErr := String

/-- Go `type HealthStatus string` (vmWatch.go). -/
abbrev HealthStatus := String

/-- Go constant `Initializing HealthStatus = "Initializing"`. -/
def Initializing : HealthStatus := "Initializing"

/-- Go constant `Healthy HealthStatus = "Healthy"`. -/
def Healthy : HealthStatus := "Healthy"

/-- Go constant `Unhealthy HealthStatus = "Unhealthy"`. -/
def Unhealthy : HealthStatus := "Unhealthy"

/-- Go constant `Unknown HealthStatus = "Unknown"`. -/
def Unknown : HealthStatus := "Unknown"

/-- Go constant `Empty HealthStatus = ""`. -/
def Empty : HealthStatus := ""

/-- Go `type VMWatchStatus string`. -/
abbrev VMWatchStatus := String

/-- Go constant `Disabled VMWatchStatus = "Disabled"`. -/
def Disabled : VMWatchStatus := "Disabled"

/-- Go constant `Running VMWatchStatus = "Running"`. -/
def Running : VMWatchStatus := "Running"

/-- Go constant `Failed VMWatchStatus = "Failed"`. -/
def Failed : VMWatchStatus := "Failed"

/-- Go `var errUnableToConvertType = errors.New("Unable to convert type")`. -/
def errUnableToConvertType : GoErr := "Unable to convert type"

/-- Go `var errNoRedirect = errors.New("No redirect allowed")`. -/
def errNoRedirect : GoErr := "No redirect allowed"

/-- Model of the Go `http.Client` the probe constructor builds: the redirect
policy (`noRedirect` always rejects), the total timeout, and whether TLS
certificate verification is skipped. -/
structure GoHttpClient where
  checkRedirectRejects : Bool
  timeoutSeconds : Nat
  insecureSkipVerify : Bool
deriving DecidableEq, Repr

/-- Go `type TcpHealthProbe struct { Address string }`. -/
structure TcpHealthProbe where
  Address : String
deriving DecidableEq, Repr

/-- Go `type HttpHealthProbe struct { HttpClient *http.Client; Address string }`;
the client pointer may be nil, hence `Option`. -/
structure HttpHealthProbe where
  HttpClient : Option GoHttpClient
  Address : String
deriving DecidableEq, Repr

/-- Go `type DefaultHealthProbe struct {}`. -/
structure DefaultHealthProbe where
deriving DecidableEq, Repr

/-- Go interface `HealthProbe`, as the closed sum of the three concrete
variants the factory can produce. -/
inductive HealthProbe where
  | tcp (p : TcpHealthProbe)
  | http (p : HttpHealthProbe)
  | dflt (p : DefaultHealthProbe)
deriving DecidableEq, Repr

/-- Modelled from the spec: `handlerSettings` and its accessors
`protocol()`, `port()`, `requestPath()` live in a configuration file that is
not under `src/`; the spec treats them as already-validated settings
supplied from configuration, so they are plain fields here. -/
structure handlerSettings where
  protocol : String
  port : Int
  requestPath : String
deriving DecidableEq, Repr

/-- Go `strings.TrimPrefix(requestPath, "/")`: removes one leading slash if
present (vmWatch.go line 303). -/
def trimLeadingSlash (s : String) : String :=
  match s.data with
  | [] => s
  | c :: rest => if c = '/' then String.mk rest else s

/-- Go `NewHttpHealthProbe(protocol, requestPath string, port int)`
(vmWatch.go lines 271-307).  The zero value of `*http.Client` is nil, and the
client is only assigned for protocol "https" or "http"; the port suffix and
the trimmed request path build the address exactly as in the source. -/
def NewHttpHealthProbe (protocol : String) (requestPath : String) (port : Int) :
    HttpHealthProbe :=
  let client : Option GoHttpClient :=
    if protocol = "https" then
      some { checkRedirectRejects := true, timeoutSeconds := 30, insecureSkipVerify := true }
    else if protocol = "http" then
      some { checkRedirectRejects := true, timeoutSeconds := 30, insecureSkipVerify := false }
    else none
  let portString : String :=
    if protocol = "http" ∧ port ≠ 0 ∧ port ≠ 80 then ":" ++ toString port
    else if protocol = "https" ∧ port ≠ 0 ∧ port ≠ 443 then ":" ++ toString port
    else ""
  { HttpClient := client
    Address := protocol ++ "://localhost" ++ portString ++ "/" ++ trimLeadingSlash requestPath }

/-- Go `NewHealthProbe(ctx, cfg)` (vmWatch.go lines 225-245): `p` starts as
the default probe and is replaced only in the "tcp", "http" and "https"
switch cases ("http" falls through to "https"). -/
def NewHealthProbe (cfg : handlerSettings) : HealthProbe :=
  if cfg.protocol = "tcp" then
    .tcp { Address := "localhost:" ++ toString cfg.port }
  else if cfg.protocol = "http" ∨ cfg.protocol = "https" then
    .http (NewHttpHealthProbe cfg.protocol cfg.requestPath cfg.port)
  else
    .dflt {}

/-- Action performed on a successfully dialed TCP connection. -/
inductive ConnAction where
  | setLinger (n : Int)
  | closeConn
deriving DecidableEq, Repr

/-- Oracle input for one TCP probe evaluation: either `net.DialTimeout`
fails (error or timeout), or it yields a connection that does or does not
convert to `*net.TCPConn`. -/
inductive DialOutcome where
  | dialErr (e : GoErr)
  | conn (isTCPConn : Bool)
deriving DecidableEq, Repr

/-- Go `(p *TcpHealthProbe) evaluate(ctx)` (vmWatch.go lines 247-261), with
the dial result supplied by the oracle; the third component records the
actions taken on the connection, in order. -/
def TcpHealthProbe.evaluate (_p : TcpHealthProbe) (o : DialOutcome) :
    HealthStatus × Option GoErr × List ConnAction :=
  match o with
  | .dialErr _ => (Unhealthy, none, [])
  | .conn false => (Unhealthy, some errUnableToConvertType, [])
  | .conn true => (Healthy, none, [.setLinger 0, .closeConn])

/-- Go `(p *TcpHealthProbe) address()`. -/
def TcpHealthProbe.address (p : TcpHealthProbe) : String := p.Address

/-- Go `(p *TcpHealthProbe) healthStatusAfterGracePeriodExpires()`
(vmWatch.go lines 267-269). -/
def TcpHealthProbe.healthStatusAfterGracePeriodExpires (_p : TcpHealthProbe) :
    HealthStatus := Unhealthy

/-- Go `ProbeResponse`: the JSON payload shape, carrying the
application-reported health state (as decoded, any string). -/
structure ProbeResponse where
  ApplicationHealthState : HealthStatus
deriving DecidableEq, Repr

/-- Modelled from the spec: `ProbeResponse.validate` is declared outside
`src/`; per the spec the payload "must pass validation (non-empty, value
drawn from the enumerated set) before being trusted". -/
def ProbeResponse.validate (pr : ProbeResponse) : Option GoErr :=
  if pr.ApplicationHealthState = Initializing ∨ pr.ApplicationHealthState = Healthy ∨
      pr.ApplicationHealthState = Unhealthy ∨ pr.ApplicationHealthState = Unknown then
    none
  else
    some "Invalid ApplicationHealthState"

/-- Stages of consuming an HTTP response body: `ioutil.ReadAll` may fail;
then `json.Unmarshal` may fail; otherwise a `ProbeResponse` is decoded. -/
inductive BodyOutcome where
  | readErr (e : GoErr)
  | decodeErr (e : GoErr)
  | decoded (pr : ProbeResponse)
deriving DecidableEq, Repr

/-- Oracle input for one HTTP probe evaluation: `http.NewRequest` may fail,
`HttpClient.Do` may fail (transport error or timeout), or a response with a
status code and a body arrives. -/
inductive HttpOutcome where
  | newRequestErr (e : GoErr)
  | doErr (e : GoErr)
  | resp (statusCode : Int) (body : BodyOutcome)
deriving DecidableEq, Repr

/-- Go `(p *HttpHealthProbe) evaluate(ctx)` (vmWatch.go lines 309-343), with
the network interaction supplied by the oracle; mirrors the source's early
returns in order: request error, transport error, non-2xx status, body read
error, JSON decode error, validation error, then the verbatim state. -/
def HttpHealthProbe.evaluate (_p : HttpHealthProbe) (o : HttpOutcome) :
    HealthStatus × Option GoErr :=
  match o with
  | .newRequestErr e => (Unknown, some e)
  | .doErr e => (Unknown, some e)
  | .resp statusCode body =>
    if statusCode < 200 ∨ statusCode > 299 then (Unknown, none)
    else
      match body with
      | .readErr e => (Unknown, some e)
      | .decodeErr e => (Unknown, some e)
      | .decoded pr =>
        match pr.validate with
        | some e => (Unknown, some e)
        | none => (pr.ApplicationHealthState, none)

/-- Go `(p *HttpHealthProbe) address()`. -/
def HttpHealthProbe.address (p : HttpHealthProbe) : String := p.Address

/-- Go `(p *HttpHealthProbe) healthStatusAfterGracePeriodExpires()`
(vmWatch.go lines 349-351). -/
def HttpHealthProbe.healthStatusAfterGracePeriodExpires (_p : HttpHealthProbe) :
    HealthStatus := Unknown

/-- Go `(p DefaultHealthProbe) evaluate(ctx)` (vmWatch.go lines 365-367):
a pure constant, performing no I/O. -/
def DefaultHealthProbe.evaluate (_p : DefaultHealthProbe) :
    HealthStatus × Option GoErr := (Healthy, none)

/-- Go `(p DefaultHealthProbe) address()`. -/
def DefaultHealthProbe.address (_p : DefaultHealthProbe) : String := ""

/-- Go `(p DefaultHealthProbe) healthStatusAfterGracePeriodExpires()`
(vmWatch.go lines 373-375). -/
def DefaultHealthProbe.healthStatusAfterGracePeriodExpires (_p : DefaultHealthProbe) :
    HealthStatus := Unhealthy

/-- Modelled from the spec: the constant `VMWatchMaxProcessAttempts` is
declared outside `src/`; the source comment above `executeVMWatch` says
"as a best effort we will attempt at most 3 times to run the process" and the
spec's retry loop is "bounded, fixed maximum attempts, e.g. 3". -/
def VMWatchMaxProcessAttempts : Nat := 3

/-- Content of one error recorded by the supervisor's retry loop:
`fmt.Errorf("[<time>][PID <pid>] Err: <cause>\nOutput: <output>")` — the
timestamp, the PID embedded in the message, the wrapped cause (`none` when a
nil `Wait` error is wrapped), and the captured combined output (absent for
setup failures, which format no output). -/
structure RecordedError where
  time : Nat
  pid : Int
  cause : Option GoErr
  output : Option String
deriving DecidableEq, Repr

/-- Go `type VMWatchResult struct { Status VMWatchStatus; Error error }`. -/
structure VMWatchResult where
  Status : VMWatchStatus
  Error : Option RecordedError
deriving DecidableEq, Repr

/-- Oracle input describing how one attempt of the retry loop plays out:
`setupVMWatchCommand` fails; or `cmd.Start()` fails (with `cmd.Process`
either nil or carrying a PID); or the process starts with a PID and
`cmd.Wait()` later returns (possibly with a nil error).  Each carries the
timestamp at which the error is formatted and, where the source captures it,
the attempt's combined output. -/
inductive AttemptOutcome where
  | setupFail (t : Nat) (e : GoErr)
  | startFail (t : Nat) (proc : Option Int) (e : GoErr) (out : String)
  | procExit (t : Nat) (procPid : Int) (waitErr : Option GoErr) (out : String)
deriving DecidableEq, Repr

/-- State threaded through the retry loop of `executeVMWatch`: the local
variables `pid` (initially -1) and `vmWatchErr` (initially nil). -/
structure ExecState where
  pid : Int
  vmWatchErr : Option RecordedError
deriving DecidableEq, Repr

/-- Error recorded by one attempt, given the loop state at its start
(vmWatch.go lines 67, 88, 96): a setup failure formats the current `pid`
and no output; a start failure first updates `pid` from `cmd.Process`
(-1 when nil) and formats it with the captured output; an exit formats the
started process's PID, the `Wait` error and the captured output. -/
def recordOf (st : ExecState) (o : AttemptOutcome) : RecordedError :=
  match o with
  | .setupFail t e => ⟨t, st.pid, some e, none⟩
  | .startFail t proc e out => ⟨t, (match proc with | none => -1 | some p => p), some e, some out⟩
  | .procExit t p we out => ⟨t, p, we, some out⟩

/-- Value of the `pid` variable after one attempt: unchanged on setup
failure (the source only assigns `pid` after `cmd.Start()`), otherwise set
from `cmd.Process` (-1 when nil). -/
def pidAfter (st : ExecState) (o : AttemptOutcome) : Int :=
  match o with
  | .setupFail _ _ => st.pid
  | .startFail _ proc _ _ => match proc with | none => -1 | some p => p
  | .procExit _ p _ _ => p

/-- One iteration of the retry loop body (vmWatch.go lines 63-98): every
branch records an error into `vmWatchErr` and then the loop continues with
the next attempt (the body contains only `continue`, never `break` or
`return`). -/
def stepAttempt (st : ExecState) (o : AttemptOutcome) : ExecState :=
  { pid := pidAfter st o, vmWatchErr := some (recordOf st o) }

/-- Loop state after attempts `1..k` have run, starting from
`pid = -1`, `vmWatchErr = nil`. -/
def stateAfter (outcomes : Nat → AttemptOutcome) (k : Nat) : ExecState :=
  (List.range' 1 k).foldl (fun st i => stepAttempt st (outcomes i)) ⟨-1, none⟩

/-- Go `executeVMWatch(ctx, s, h, vmWatchResultChannel)` (vmWatch.go lines
52-99): the `for i := 1; i <= VMWatchMaxProcessAttempts; i++` loop runs every
attempt (no branch exits it early), and the deferred function then sends the
single `VMWatchResult{Status: Failed, Error: vmWatchErr}` before returning.
Returns the list of attempt indices performed and the list of results
written to the channel, in order. -/
def executeVMWatch (outcomes : Nat → AttemptOutcome) :
    List Nat × List VMWatchResult :=
  (List.range' 1 VMWatchMaxProcessAttempts,
   [{ Status := Failed, Error := (stateAfter outcomes VMWatchMaxProcessAttempts).vmWatchErr }])

/-- Model of Go `os.Process`: the PID, plus the oracle-determined outcome of
calling `Kill` on it (`none` = `Kill` succeeds). -/
structure GoProcess where
  Pid : Int
  killResult : Option GoErr
deriving DecidableEq, Repr

/-- Model of Go `exec.Cmd` as far as `killVMWatch` inspects it: the
`Process` field is nil until the command has been started. -/
structure ExecCmd where
  Process : Option GoProcess
deriving DecidableEq, Repr

/-- Go `killVMWatch(ctx, cmd)` (vmWatch.go lines 101-114): nil command or
nil `cmd.Process` returns nil without touching the process; otherwise the
result of `cmd.Process.Kill()` is returned (its error when it fails, nil
when it succeeds). -/
def killVMWatch (cmd : Option ExecCmd) : Option GoErr :=
  match cmd with
  | none => none
  | some c =>
    match c.Process with
    | none => none
    | some proc => proc.killResult

/-- Modelled from the spec: constant `HandlerEnvironmentEventsFolderPath` is
declared outside `src/`; it is the fixed signal-folder path passed to the
watcher. -/
def HandlerEnvironmentEventsFolderPath : String :=
  "/var/log/azure/Extension/events"

/-- Modelled from the spec: constant `VMWatchVerboseLogFileName` is declared
outside `src/`; it is the verbose log file name joined to the host log
folder. -/
def VMWatchVerboseLogFileName : String := "vmwatch.log"

/-- Go `filepath.Join` restricted to the use here (joining a folder and a
file name with a separator). -/
def filepathJoin (a b : String) : String := a ++ "/" ++ b

/-- Handler environment as far as `GetVMWatchEnvironmentVariables` reads it:
`h.HandlerEnvironment.LogFolder`. -/
structure HandlerEnvironment where
  LogFolder : String
deriving DecidableEq, Repr

/-- Go `GetVMWatchEnvironmentVariables(parameterOverrides, h)` (vmWatch.go
lines 160-170).  The Go map is modelled as a list of key/value entries (one
per override, iteration order unspecified by Go); each is rendered
`KEY=VALUE`, then the two fixed entries are appended. -/
def GetVMWatchEnvironmentVariables (parameterOverrides : List (String × String))
    (h : HandlerEnvironment) : List String :=
  (parameterOverrides.map (fun kv => kv.1 ++ "=" ++ kv.2)) ++
    ["SIGNAL_FOLDER=" ++ HandlerEnvironmentEventsFolderPath,
     "VERBOSE_LOG_FILE_FULL_PATH=" ++ filepathJoin h.LogFolder VMWatchVerboseLogFileName]

/-- Concrete attempt trace: attempt 1 starts a process with PID 5 which then
exits; every later attempt fails during setup. -/
def setupAfterStartTrace : Nat → AttemptOutcome := fun i =>
  if i = 1 then .procExit 0 5 (some "process exited") "output1"
  else .setupFail 1 "setup failed"

/-! Theorems checking the specification's claims. -/

/-- Helper: unrolling one attempt of the retry loop. -/
theorem stateAfter_succ (o : Nat → AttemptOutcome) (k : Nat) :
    stateAfter o (k + 1) = stepAttempt (stateAfter o k) (o (k + 1)) := by
  unfold stateAfter
  rw [List.range'_concat, List.foldl_append]
  have h1 : 1 + 1 * k = k + 1 := by omega
  rw [h1]
  rfl

/-- C1: every call of the supervisor's run performs exactly
`VMWatchMaxProcessAttempts` attempts, whatever each attempt's outcome, and
then writes exactly one `VMWatchResult` with `Status = Failed` carrying the
most recently recorded error (the record produced by the final attempt from
the state the earlier attempts left) before returning. -/
theorem executeVMWatch_spec (o : Nat → AttemptOutcome) :
    (executeVMWatch o).1.length = VMWatchMaxProcessAttempts ∧
    (executeVMWatch o).2 =
      [{ Status := Failed,
         Error := some (recordOf (stateAfter o (VMWatchMaxProcessAttempts - 1))
            (o VMWatchMaxProcessAttempts)) }] :=
  ⟨rfl, rfl⟩

/-- C2: the HTTP/HTTPS probe returns `(Unknown, nil)` on a non-2xx status
code; `(Unknown, err)` when request construction, the transport call, body
reading, JSON decoding or validation fails; and otherwise the
application-reported health state verbatim with a nil error. -/
theorem HttpHealthProbe_evaluate_spec (p : HttpHealthProbe) (statusCode : Int)
    (body : BodyOutcome) (e : GoErr) (pr : ProbeResponse) :
    ((statusCode < 200 ∨ statusCode > 299) →
      p.evaluate (.resp statusCode body) = (Unknown, none)) ∧
    p.evaluate (.newRequestErr e) = (Unknown, some e) ∧
    p.evaluate (.doErr e) = (Unknown, some e) ∧
    (200 ≤ statusCode → statusCode ≤ 299 →
      p.evaluate (.resp statusCode (.readErr e)) = (Unknown, some e) ∧
      p.evaluate (.resp statusCode (.decodeErr e)) = (Unknown, some e) ∧
      (pr.validate = some e →
        p.evaluate (.resp statusCode (.decoded pr)) = (Unknown, some e)) ∧
      (pr.validate = none →
        p.evaluate (.resp statusCode (.decoded pr)) = (pr.ApplicationHealthState, none))) := by
  refine ⟨?_, rfl, rfl, ?_⟩
  · intro hout
    simp only [HttpHealthProbe.evaluate, if_pos hout]
  · intro hlo hhi
    have hcond : ¬(statusCode < 200 ∨ statusCode > 299) := by omega
    refine ⟨?_, ?_, ?_, ?_⟩
    · simp only [HttpHealthProbe.evaluate, if_neg hcond]
    · simp only [HttpHealthProbe.evaluate, if_neg hcond]
    · intro hval
      simp only [HttpHealthProbe.evaluate, if_neg hcond, hval]
    · intro hval
      simp only [HttpHealthProbe.evaluate, if_neg hcond, hval]

/-- Witness for C2: a 503 response yields `(Unknown, nil)` and a 200
response with a valid body yields the reported state. -/
theorem HttpHealthProbe_evaluate_spec_witness :
    (NewHttpHealthProbe "http" "status" 0).evaluate
        (.resp 503 (.decoded ⟨"Healthy"⟩)) = (Unknown, none) ∧
    (NewHttpHealthProbe "http" "status" 0).evaluate
        (.resp 200 (.decoded ⟨"Healthy"⟩)) = ("Healthy", none) :=
  ⟨(HttpHealthProbe_evaluate_spec (NewHttpHealthProbe "http" "status" 0) 503
      (.decoded ⟨"Healthy"⟩) "e" ⟨"Healthy"⟩).1 (by omega),
   ((HttpHealthProbe_evaluate_spec (NewHttpHealthProbe "http" "status" 0) 200
      (.decoded ⟨"Healthy"⟩) "e" ⟨"Healthy"⟩).2.2.2 (by omega) (by omega)).2.2.2 rfl⟩

/-- C3: the TCP probe returns `(Unhealthy, nil)` when dialing fails or times
out; on success it sets linger to zero, closes the connection (in that
order) and returns `(Healthy, nil)`; and a connection that cannot be
converted to a TCP connection yields the distinct conversion error — a
non-nil error, unlike the normal unhealthy result. -/
theorem TcpHealthProbe_evaluate_spec (p : TcpHealthProbe) :
    (∀ e, p.evaluate (.dialErr e) = (Unhealthy, none, [])) ∧
    p.evaluate (.conn true) = (Healthy, none, [.setLinger 0, .closeConn]) ∧
    p.evaluate (.conn false) = (Unhealthy, some errUnableToConvertType, []) ∧
    some errUnableToConvertType ≠ (none : Option GoErr) :=
  ⟨fun _ => rfl, rfl, rfl, by simp⟩

/-- C4: for protocol http or https the constructed address is
`scheme://localhost[:port]/path`, with the port suffix omitted exactly when
the port is 0 or the scheme's default, and one caller-supplied leading slash
stripped from the path; including the spec's two concrete examples. -/
theorem NewHttpHealthProbe_address_spec (protocol requestPath : String) (port : Int)
    (h : protocol = "http" ∨ protocol = "https") :
    (NewHttpHealthProbe protocol requestPath port).Address =
      protocol ++ "://localhost" ++
        (if port = 0 ∨ port = (if protocol = "http" then 80 else 443) then ""
         else ":" ++ toString port) ++
      "/" ++ trimLeadingSlash requestPath ∧
    (NewHttpHealthProbe "http" "/status" 80).Address = "http://localhost/status" ∧
    (NewHttpHealthProbe "https" "healthz" 8443).Address = "https://localhost:8443/healthz" := by
  refine ⟨?_, by decide, by decide⟩
  rcases h with h | h <;> subst h
  · by_cases h0 : port = 0 <;> by_cases h80 : port = 80 <;>
      simp [NewHttpHealthProbe, h0, h80]
  · by_cases h0 : port = 0 <;> by_cases h443 : port = 443 <;>
      simp [NewHttpHealthProbe, h0, h443]

/-- Witness for C4: the address equation applied at protocol http,
port 8080, path "x". -/
theorem NewHttpHealthProbe_address_spec_witness :
    (NewHttpHealthProbe "http" "x" 8080).Address =
      "http" ++ "://localhost" ++
        (if (8080 : Int) = 0 ∨ (8080 : Int) = (if "http" = "http" then 80 else 443) then ""
         else ":" ++ toString (8080 : Int)) ++
      "/" ++ trimLeadingSlash "x" :=
  (NewHttpHealthProbe_address_spec "http" "x" 8080 (Or.inl rfl)).1

/-- C5: every protocol outside tcp, http, https (the empty string for an
absent configuration included) yields the default probe, whose evaluate is
the constant `(Healthy, nil)` with no I/O. -/
theorem NewHealthProbe_default_spec (cfg : handlerSettings)
    (h : cfg.protocol ≠ "tcp" ∧ cfg.protocol ≠ "http" ∧ cfg.protocol ≠ "https") :
    NewHealthProbe cfg = .dflt {} ∧
    ∀ p : DefaultHealthProbe, p.evaluate = (Healthy, none) := by
  obtain ⟨h1, h2, h3⟩ := h
  exact ⟨by simp [NewHealthProbe, h1, h2, h3], fun _ => rfl⟩

/-- Witness for C5: an unrecognized protocol string produces the default
probe. -/
theorem NewHealthProbe_default_spec_witness :
    NewHealthProbe ⟨"udp", 0, ""⟩ = .dflt {} :=
  (NewHealthProbe_default_spec ⟨"udp", 0, ""⟩ (by refine ⟨?_, ?_, ?_⟩ <;> decide)).1

/-- Helper: as long as every attempt so far has failed during setup, the
`pid` variable still holds its initial sentinel value -1. -/
theorem pid_neg_one_of_all_setup (o : Nat → AttemptOutcome) :
    ∀ k, (∀ j, j < k → ∃ t e, o (j + 1) = .setupFail t e) →
      (stateAfter o k).pid = -1 := by
  intro k
  induction k with
  | zero => intro _; rfl
  | succ n ih =>
    intro hall
    rw [stateAfter_succ]
    obtain ⟨t, e, he⟩ := hall n (Nat.lt_succ_self n)
    rw [he]
    show (stateAfter o n).pid = -1
    exact ih (fun j hj => hall j (Nat.lt_succ_of_lt hj))

/-- C6 counterexample: in the trace where attempt 1 starts a process with
PID 5 which exits and attempt 2 then fails setup, the error recorded for the
setup failure carries PID 5, not the sentinel -1 the claim asserts. -/
theorem setupFail_stale_pid_counterexample :
    setupAfterStartTrace 2 = .setupFail 1 "setup failed" ∧
    (stateAfter setupAfterStartTrace 2).vmWatchErr =
      some ⟨1, 5, some "setup failed", none⟩ ∧
    (5 : Int) ≠ -1 :=
  ⟨rfl, rfl, by decide⟩

/-- C6 amended: when setup fails at an attempt, the recorded error is tagged
with a timestamp and the current value of the `pid` variable — which equals
-1 as long as no earlier attempt has run a process, but retains the last
recorded process PID otherwise — and the loop proceeds through all remaining
attempts rather than aborting. -/
theorem setupFail_recording (o : Nat → AttemptOutcome) (i t : Nat) (e : GoErr)
    (hi : o (i + 1) = .setupFail t e) :
    (stateAfter o (i + 1)).pid = (stateAfter o i).pid ∧
    (stateAfter o (i + 1)).vmWatchErr =
      some ⟨t, (stateAfter o i).pid, some e, none⟩ ∧
    (executeVMWatch o).1.length = VMWatchMaxProcessAttempts ∧
    ((∀ j, j < i + 1 → ∃ t' e', o (j + 1) = .setupFail t' e') →
      (stateAfter o (i + 1)).pid = -1) := by
  refine ⟨?_, ?_, rfl, ?_⟩
  · rw [stateAfter_succ, hi]; rfl
  · rw [stateAfter_succ, hi]; rfl
  · intro hall
    rw [stateAfter_succ, hi]
    show (stateAfter o i).pid = -1
    exact pid_neg_one_of_all_setup o i (fun j hj => hall j (Nat.lt_succ_of_lt hj))

/-- Witness for C6 amended: a trace of nothing but setup failures records
the sentinel PID -1. -/
theorem setupFail_recording_witness :
    (stateAfter (fun _ => .setupFail 7 "boom") 1).vmWatchErr =
      some ⟨7, -1, some "boom", none⟩ ∧
    (stateAfter (fun _ => .setupFail 7 "boom") 1).pid = -1 :=
  ⟨(setupFail_recording (fun _ => .setupFail 7 "boom") 0 7 "boom" rfl).2.1,
   (setupFail_recording (fun _ => .setupFail 7 "boom") 0 7 "boom" rfl).2.2.2
     (fun _ _ => ⟨7, "boom", rfl⟩)⟩

/-- C7: the grace-period fallback statuses are the fixed constants
`Unhealthy` (TCP), `Unknown` (HTTP/HTTPS) and `Unhealthy` (default), while
the default probe's evaluate only ever returns `Healthy` — the documented
asymmetry. -/
theorem healthStatusAfterGracePeriodExpires_spec :
    (∀ p : TcpHealthProbe, p.healthStatusAfterGracePeriodExpires = Unhealthy) ∧
    (∀ p : HttpHealthProbe, p.healthStatusAfterGracePeriodExpires = Unknown) ∧
    (∀ p : DefaultHealthProbe, p.healthStatusAfterGracePeriodExpires = Unhealthy) ∧
    (∀ p : DefaultHealthProbe, p.evaluate = (Healthy, none)) ∧
    Unhealthy ≠ Healthy :=
  ⟨fun _ => rfl, fun _ => rfl, fun _ => rfl, fun _ => rfl, by decide⟩

/-- C8: killing a nil command or a command whose process was never started
is a no-op returning nil; with a started process the call returns exactly
the result of `Process.Kill` — an error precisely when the kill fails. -/
theorem killVMWatch_spec :
    killVMWatch none = none ∧
    (∀ c : ExecCmd, c.Process = none → killVMWatch (some c) = none) ∧
    (∀ (c : ExecCmd) (proc : GoProcess), c.Process = some proc →
      killVMWatch (some c) = proc.killResult ∧
      (killVMWatch (some c) = none ↔ proc.killResult = none)) := by
  refine ⟨rfl, ?_, ?_⟩
  · intro c hc
    simp [killVMWatch, hc]
  · intro c proc hc
    simp [killVMWatch, hc]

/-- Witness for C8: a never-started command is a no-op and a failing kill
returns its error. -/
theorem killVMWatch_spec_witness :
    killVMWatch (some ⟨none⟩) = none ∧
    killVMWatch (some ⟨some ⟨7, some "EPERM"⟩⟩) = some "EPERM" :=
  ⟨(killVMWatch_spec.2.1 ⟨none⟩ rfl),
   (killVMWatch_spec.2.2 ⟨some ⟨7, some "EPERM"⟩⟩ ⟨7, some "EPERM"⟩ rfl).1⟩

/-- C9: the watcher environment list has exactly one KEY=VALUE entry per
override plus two more, and its final two elements are always the
SIGNAL_FOLDER entry followed by the VERBOSE_LOG_FILE_FULL_PATH entry. -/
theorem GetVMWatchEnvironmentVariables_spec (ov : List (String × String))
    (h : HandlerEnvironment) :
    (GetVMWatchEnvironmentVariables ov h).length = ov.length + 2 ∧
    (GetVMWatchEnvironmentVariables ov h).take ov.length =
      ov.map (fun kv => kv.1 ++ "=" ++ kv.2) ∧
    (GetVMWatchEnvironmentVariables ov h).drop ov.length =
      ["SIGNAL_FOLDER=" ++ HandlerEnvironmentEventsFolderPath,
       "VERBOSE_LOG_FILE_FULL_PATH=" ++ filepathJoin h.LogFolder VMWatchVerboseLogFileName] := by
  unfold GetVMWatchEnvironmentVariables
  refine ⟨by simp, ?_, ?_⟩
  · rw [List.take_left' (by simp)]
  · rw [List.drop_left' (by simp)]

/-- C10: the HTTP probe constructor assigns no client for protocols other
than http and https, and the factory only reaches that constructor with
protocol http or https, where the client is always assigned. -/
theorem NewHttpHealthProbe_nil_client_spec (protocol requestPath : String) (port : Int)
    (cfg : handlerSettings) :
    (protocol ≠ "http" ∧ protocol ≠ "https" →
      (NewHttpHealthProbe protocol requestPath port).HttpClient = none) ∧
    (∀ p, NewHealthProbe cfg = .http p →
      (cfg.protocol = "http" ∨ cfg.protocol = "https") ∧ p.HttpClient ≠ none) := by
  constructor
  · rintro ⟨h1, h2⟩
    simp [NewHttpHealthProbe, h1, h2]
  · intro p hp
    unfold NewHealthProbe at hp
    split at hp
    · exact absurd hp (by simp)
    · split at hp
      next hor =>
        injection hp with hp
        subst hp
        refine ⟨hor, ?_⟩
        rcases hor with h | h <;> simp [NewHttpHealthProbe, h]
      next => exact absurd hp (by simp)

/-- Witness for C10: protocol tcp gets a nil client, and an http
configuration gets a non-nil one. -/
theorem NewHttpHealthProbe_nil_client_spec_witness :
    (NewHttpHealthProbe "tcp" "x" 5).HttpClient = none ∧
    ((NewHealthProbe ⟨"http", 8080, "x"⟩ = .http (NewHttpHealthProbe "http" "x" 8080)) ∧
      (NewHttpHealthProbe "http" "x" 8080).HttpClient ≠ none) :=
  ⟨(NewHttpHealthProbe_nil_client_spec "tcp" "x" 5 ⟨"tcp", 5, "x"⟩).1 (by refine ⟨?_, ?_⟩ <;> decide),
   ⟨rfl, ((NewHttpHealthProbe_nil_client_spec "http" "x" 8080 ⟨"http", 8080, "x"⟩).2
      (NewHttpHealthProbe "http" "x" 8080) rfl).2⟩⟩

end AppHealth
